import Mathlib

/-!
Verification of the reader-service query dispatch and result-derivation layer
(`reader-service-py/main.py`): a shallow embedding of the request handler, the
three query pipelines (critical alerts, device health, temperature anomaly),
and proofs of the specified properties.

Python values (JSON values, request parameters, store cell values) are
modelled by the inductive type `Value`; Python floats are modelled as exact
rationals. The external time-series store is modelled as a function from the
flux query string to the list of tables it returns; the queries a handler
issues are returned alongside its result so that "the store is not queried"
is expressible. Python exceptions are modelled with `Except String`: the
`Except.error` carries the description `str(e)` that the dispatcher reports.
-/

namespace ReaderService

/-- Model of a Python/JSON value as it occurs in requests, responses and
store records. Floats are modelled as exact rationals. -/
inductive Value where
  | vnone
  | vbool (b : Bool)
  | vint (n : ℤ)
  | vfloat (q : ℚ)
  | vstr (s : String)
  | vlist (xs : List Value)
  | vdict (fs : List (String × Value))

open Value

mutual

/-- Structural equality on values, modelling Python `==` on non-numeric
values of equal type (dict equality is modelled order-sensitively; grouping
keys in this service are tag strings, so container keys do not occur). -/
def vbeq : Value → Value → Bool
  | .vnone, .vnone => true
  | .vbool a, .vbool b => a == b
  | .vint a, .vint b => a == b
  | .vfloat a, .vfloat b => a == b
  | .vstr a, .vstr b => a == b
  | .vlist a, .vlist b => lbeq a b
  | .vdict a, .vdict b => fbeq a b
  | _, _ => false

/-- Elementwise equality of value lists. -/
def lbeq : List Value → List Value → Bool
  | [], [] => true
  | a :: as, b :: bs => vbeq a b && lbeq as bs
  | _, _ => false

/-- Elementwise equality of key/value field lists. -/
def fbeq : List (String × Value) → List (String × Value) → Bool
  | [], [] => true
  | (k, v) :: as, (l, w) :: bs => k == l && vbeq v w && fbeq as bs
  | _, _ => false

end

/-- Python type name of a value, as it appears in TypeError messages. -/
def pyType : Value → String
  | .vnone => "NoneType"
  | .vbool _ => "bool"
  | .vint _ => "int"
  | .vfloat _ => "float"
  | .vstr _ => "str"
  | .vlist _ => "list"
  | .vdict _ => "dict"

/-- Python `isinstance(v, (int, float))`; `bool` is a subclass of `int`. -/
def isNumeric : Value → Bool
  | .vbool _ => true
  | .vint _ => true
  | .vfloat _ => true
  | _ => false

/-- Numeric value of a number, with a default of 0 on non-numbers (only
applied where `isNumeric` already holds). -/
def toRatD : Value → ℚ
  | .vbool b => if b then 1 else 0
  | .vint n => (n : ℚ)
  | .vfloat q => q
  | _ => 0

/-- Python truthiness, as used by `if not device`. -/
def pyTruthy : Value → Bool
  | .vnone => false
  | .vbool b => b
  | .vint n => decide (n ≠ 0)
  | .vfloat q => decide (q ≠ 0)
  | .vstr s => decide (s ≠ "")
  | .vlist xs => !xs.isEmpty
  | .vdict fs => !fs.isEmpty

/-- Python `v != 0`, as used by the anomaly ratio guard: numeric values
compare numerically, non-numeric values are unequal to `0`. -/
def pyNeZero : Value → Bool
  | .vbool b => b
  | .vint n => decide (n ≠ 0)
  | .vfloat q => decide (q ≠ 0)
  | _ => true

/-- Python `str(v)`, as interpolated into f-strings (container rendering is
abbreviated; only scalar values are interpolated by this service). -/
def pyStr : Value → String
  | .vnone => "None"
  | .vbool b => if b then "True" else "False"
  | .vint n => toString n
  | .vfloat q => toString q
  | .vstr s => s
  | .vlist _ => "[...]"
  | .vdict _ => "\x7b...\x7d"

/-- Decimal digit accumulator for integer-literal parsing. -/
def decDigitsAux : ℕ → List Char → Option ℕ
  | acc, [] => some acc
  | acc, c :: cs =>
    if c.isDigit then decDigitsAux (10 * acc + (c.toNat - 48)) cs else none

/-- Parse of a Python integer literal (optional sign, decimal digits),
modelling the accepting set of `int(str)`. -/
def pyStrToInt : String → Option ℤ
  | s =>
    match s.data with
    | [] => none
    | '-' :: cs =>
      if cs = [] then none else (decDigitsAux 0 cs).map (fun n => -(n : ℤ))
    | '+' :: cs =>
      if cs = [] then none else (decDigitsAux 0 cs).map (fun n => (n : ℤ))
    | cs => (decDigitsAux 0 cs).map (fun n => (n : ℤ))

/-- Truncation toward zero, the behaviour of Python `int(float)`. -/
def ratTrunc (q : ℚ) : ℤ := if q < 0 then -⌊-q⌋ else ⌊q⌋

/-- Python `int(v)`: numbers truncate, strings parse as integer literals,
anything else raises `TypeError`. -/
def pyInt : Value → Except String ℤ
  | .vbool b => .ok (if b then 1 else 0)
  | .vint n => .ok n
  | .vfloat q => .ok (ratTrunc q)
  | .vstr s =>
    match pyStrToInt s with
    | some n => .ok n
    | none => .error ("invalid literal for int() with base 10: " ++ s)
  | v => .error ("int() argument must be a string, a bytes-like object or a real number, not " ++ pyType v)

/-- Python `float(v)`: numbers convert, strings parse (integer-literal
subset, which suffices for this service), anything else raises. -/
def pyFloat : Value → Except String ℚ
  | .vbool b => .ok (if b then 1 else 0)
  | .vint n => .ok (n : ℚ)
  | .vfloat q => .ok q
  | .vstr s =>
    match pyStrToInt s with
    | some n => .ok (n : ℚ)
    | none => .error ("could not convert string to float: " ++ s)
  | v => .error ("float() argument must be a string or a real number, not " ++ pyType v)

/-- Python `a / b`: numeric operands divide (the result is a float, here an
exact rational), anything else raises `TypeError`. -/
def pyDiv (a b : Value) : Except String Value :=
  if isNumeric a && isNumeric b then .ok (vfloat (toRatD a / toRatD b))
  else .error ("unsupported operand type(s) for /: " ++ pyType a ++ " and " ++ pyType b)

/-- Round-half-to-even to an integer, the rounding mode of Python `round`. -/
def roundHalfEven (q : ℚ) : ℤ :=
  if q - ⌊q⌋ < 1/2 then ⌊q⌋
  else if q - ⌊q⌋ > 1/2 then ⌊q⌋ + 1
  else if ⌊q⌋ % 2 = 0 then ⌊q⌋ else ⌊q⌋ + 1

/-- Python `round(q, 2)` on a float value. -/
def pyRound2 (q : ℚ) : ℚ := (roundHalfEven (100 * q) : ℚ) / 100

/-- Python `round(v, 2)` on a number: integers are returned unchanged,
floats are rounded to two decimal places. -/
def pyRoundVal : Value → Value
  | .vint n => vint n
  | .vfloat q => vfloat (pyRound2 q)
  | v => v

/-- Lookup in an association list with a default, the dict part of Python
`d.get(key, default)`. -/
def lookupD (fs : List (String × Value)) (k : String) (d : Value) : Value :=
  (fs.lookup k).getD d

/-- Python `v.get(key, default)`: dictionaries look the key up, any other
receiver raises `AttributeError`. -/
def pyGetD (v : Value) (k : String) (d : Value) : Except String Value :=
  match v with
  | .vdict fs => .ok (lookupD fs k d)
  | w => .error ("AttributeError: " ++ pyType w ++ " object has no attribute get")

/-- Error response envelope `{"status": "error", "message": m}`. -/
def errResp (m : String) : Value :=
  vdict [("status", vstr "error"), ("message", vstr m)]

/-- One record of a flux query result: its timestamp (already rendered as
the ISO string `record.get_time().isoformat()` produces), its `_field`
name, its `_value`, and the remaining columns accessed by name. -/
structure FluxRecord where
  time : String
  field : String
  value : Value
  columns : List (String × Value)

/-- The external query interface: a flux query either returns a list of
tables, each a list of records, or raises. -/
def Store : Type := String → Except String (List (List FluxRecord))

/-- Column access `record["name"]`; a missing column raises `KeyError`. -/
def colGet (r : FluxRecord) (k : String) : Except String Value :=
  match r.columns.lookup k with
  | some v => .ok v
  | none => .error ("KeyError: " ++ k)

/-- Configured bucket name (environment-supplied; its concrete text is
irrelevant to the handler logic). -/
def INFLUXDB_BUCKET : String := "BUCKET"

/-- Flux query of the critical-alerts pipeline. -/
def alertsFlux (since_minutes min_crit : ℤ) : String :=
  "from(bucket: \"" ++ INFLUXDB_BUCKET ++ "\") |> range(start: -" ++ toString since_minutes ++ "m) |> filter(fn: (r) => r._measurement == \"events\") |> filter(fn: (r) => r.criticality_level >= " ++ toString min_crit ++ ") |> sort(columns: [\"_time\"], desc: true) |> keep(columns: [\"_time\", \"event_id\", \"event_type\", \"source_device\", \"criticality_level\"])"

/-- Flux query of the device-health pipeline. -/
def healthFlux (device : String) : String :=
  "from(bucket: \"" ++ INFLUXDB_BUCKET ++ "\") |> range(start: -5m) |> filter(fn: (r) => r._measurement == \"device_metrics\") |> filter(fn: (r) => r.source_device == \"" ++ device ++ "\") |> last()"

/-- Flux query of the temperature-anomaly pipeline. -/
def anomalyFlux (device : String) (window : ℤ) : String :=
  "from(bucket: \"" ++ INFLUXDB_BUCKET ++ "\") |> range(start: -" ++ toString window ++ "m) |> filter(fn: (r) => r._measurement == \"device_metrics\") |> filter(fn: (r) => r.source_device == \"" ++ device ++ "\" and r.metric_type == \"temperature\") |> sort(columns: [\"_time\"], desc: false)"

/-- Projection of one critical-alerts row into the response record, in the
evaluation order of the Python dict literal; `int(record["criticality_level"])`
can raise, which aborts the whole handler. -/
def projectAlert (r : FluxRecord) : Except String Value :=
  match colGet r "event_id" with
  | .error e => .error e
  | .ok eid =>
    match colGet r "source_device" with
    | .error e => .error e
    | .ok dev =>
      match colGet r "event_type" with
      | .error e => .error e
      | .ok ety =>
        match colGet r "criticality_level" with
        | .error e => .error e
        | .ok critRaw =>
          match pyInt critRaw with
          | .error e => .error e
          | .ok crit =>
            .ok (vdict [("time", vstr r.time), ("event_id", eid),
              ("source_device", dev), ("event_type", ety),
              ("criticality", vint crit)])

/-- Projection loop of `handle_alerts_critical`: records are appended in
iteration order; the first raising record aborts. -/
def projectAlerts : List FluxRecord → Except String (List Value)
  | [] => .ok []
  | r :: rs =>
    match projectAlert r with
    | .error e => .error e
    | .ok v =>
      match projectAlerts rs with
      | .error e => .error e
      | .ok vs => .ok (v :: vs)

/-- Ordered insertion for the sort of group keys. -/
def insertLe (le : Value → Value → Bool) (a : Value) : List Value → List Value
  | [] => [a]
  | b :: l => if le a b then a :: b :: l else b :: insertLe le a l

/-- Insertion sort, modelling the sorted group keys that pandas
`groupby(..., sort=True)` produces. -/
def sortLe (le : Value → Value → Bool) : List Value → List Value
  | [] => []
  | a :: l => insertLe le a (sortLe le l)

/-- Total lexicographic comparison of character lists by code point. -/
def charListLe : List Char → List Char → Bool
  | [], _ => true
  | _ :: _, [] => false
  | a :: as, b :: bs =>
    if a.toNat < b.toNat then true
    else if b.toNat < a.toNat then false
    else charListLe as bs

/-- Total lexicographic comparison of group keys via their string
rendering (group keys of this service are tag strings). -/
def keyLe (a b : Value) : Bool := charListLe (pyStr a).data (pyStr b).data

/-- Python `==`, the equality under which pandas groups rows: numeric
values compare numerically, other values structurally per type. -/
def pyEqV (a b : Value) : Bool :=
  if isNumeric a && isNumeric b then toRatD a == toRatD b else vbeq a b

/-- Deduplication under an equality predicate (which representative is kept
does not matter: the keys are sorted afterwards). -/
def dedupBy (eq : Value → Value → Bool) : List Value → List Value
  | [] => []
  | a :: l =>
    let r := dedupBy eq l
    if r.any (eq a) then r else a :: r

/-- The `source_device` column of a projected row. -/
def deviceOf (row : Value) : Value :=
  match row with
  | .vdict fs => lookupD fs "source_device" vnone
  | _ => vnone

/-- Model of `df.groupby("source_device").size().reset_index(...)
.to_dict(orient="records")` on the projected rows: one record per distinct
`source_device` value, keys sorted, carrying the group size. -/
def groupSummary (rows : List Value) : List Value :=
  let devs := rows.map deviceOf
  let keys := sortLe keyLe (dedupBy pyEqV devs)
  keys.map (fun d =>
    vdict [("source_device", d), ("critical_event_count", vint (devs.countP (pyEqV d)))])

/-- Handler of `query_type == "alerts_critical"`. Returns the pipeline
outcome (response value, or the raised exception) paired with the flux
queries it sent to the store. -/
def handle_alerts_critical (store : Store) (params : Value) :
    Except String Value × List String :=
  match pyGetD params "since_minutes" (vint 15) with
  | .error e => (.error e, [])
  | .ok smRaw =>
    match pyInt smRaw with
    | .error e => (.error e, [])
    | .ok since_minutes =>
      match pyGetD params "min_criticality" (vint 8) with
      | .error e => (.error e, [])
      | .ok mcRaw =>
        match pyInt mcRaw with
        | .error e => (.error e, [])
        | .ok min_crit =>
          let flux := alertsFlux since_minutes min_crit
          match store flux with
          | .error e => (.error e, [flux])
          | .ok tables =>
            match projectAlerts tables.flatten with
            | .error e => (.error e, [flux])
            | .ok result =>
              let summary_data := if result.isEmpty then [] else groupSummary result
              (.ok (vdict [("status", vstr "success"), ("data", vlist result),
                ("summary", vlist summary_data)]), [flux])

/-- Threshold classification of a numeric health sample. -/
def classify (v : ℚ) : String :=
  if v > 90 then "critical" else if v > 70 then "warning" else "ok"

/-- One step of the device-health row loop: a record whose field is
`"value"` with a numeric value overwrites the running status. -/
def healthStep (st : String) (r : FluxRecord) : String :=
  if r.field == "value" && isNumeric r.value then classify (toRatD r.value) else st

/-- Handler of `query_type == "device_health"`. -/
def handle_device_health (store : Store) (params : Value) :
    Except String Value × List String :=
  match pyGetD params "source_device" vnone with
  | .error e => (.error e, [])
  | .ok device =>
    if pyTruthy device = false then
      (.ok (errResp "source_device is required"), [])
    else
      let flux := healthFlux (pyStr device)
      match store flux with
      | .error e => (.error e, [flux])
      | .ok tables =>
        let health_status := tables.flatten.foldl healthStep "unknown"
        (.ok (vdict [("status", vstr "success"),
          ("data", vdict [("device", device), ("health", vstr health_status)])]), [flux])

/-- Handler of `query_type == "anomaly_temperature"`. Note that it reads
`source_device` without any presence check. -/
def handle_anomaly_temperature (store : Store) (params : Value) :
    Except String Value × List String :=
  match pyGetD params "source_device" vnone with
  | .error e => (.error e, [])
  | .ok device =>
    match pyGetD params "threshold" (vfloat (13/10)) with
    | .error e => (.error e, [])
    | .ok thRaw =>
      match pyFloat thRaw with
      | .error e => (.error e, [])
      | .ok threshold =>
        match pyGetD params "window_minutes" (vint 20) with
        | .error e => (.error e, [])
        | .ok wmRaw =>
          match pyInt wmRaw with
          | .error e => (.error e, [])
          | .ok window =>
            let flux := anomalyFlux (pyStr device) window
            match store flux with
            | .error e => (.error e, [flux])
            | .ok tables =>
              let values := tables.flatten.filterMap
                (fun r => if r.field == "value" then some r.value else none)
              if values.length < 2 then
                (.ok (vdict [("status", vstr "success"),
                  ("data", vstr "not enough data")]), [flux])
              else
                let initial := values.headD vnone
                let latest := values.getLastD vnone
                match (if pyNeZero initial then pyDiv latest initial
                       else .ok (vint 0)) with
                | .error e => (.error e, [flux])
                | .ok ratio =>
                  let anomaly := decide (toRatD ratio ≥ threshold)
                  (.ok (vdict [("status", vstr "success"),
                    ("data", vdict [("device", device),
                      ("initial_temp", initial), ("latest_temp", latest),
                      ("ratio", pyRoundVal ratio),
                      ("anomaly", vbool anomaly)])]), [flux])

/-- Python `v == "s"` for the query-type comparisons: only an equal string
compares equal. -/
def pyEqStr (v : Value) (s : String) : Bool :=
  match v with
  | .vstr t => t == s
  | _ => false

/-- Body of the dispatcher try-block: parse outcome of the request body,
query-type selection, pipeline invocation. The `Except.error` case is the
exception that the surrounding `except` catches. -/
def dispatch (store : Store) (parsed : Except String Value) :
    Except String Value × List String :=
  match parsed with
  | .error e => (.error e, [])
  | .ok request =>
    match pyGetD request "query_type" vnone with
    | .error e => (.error e, [])
    | .ok query_type =>
      match pyGetD request "params" (vdict []) with
      | .error e => (.error e, [])
      | .ok params =>
        if pyEqStr query_type "alerts_critical" then
          handle_alerts_critical store params
        else if pyEqStr query_type "device_health" then
          handle_device_health store params
        else if pyEqStr query_type "anomaly_temperature" then
          handle_anomaly_temperature store params
        else
          (.ok (errResp ("Unknown query_type: " ++ pyStr query_type)), [])

/-- The dispatcher `request_handler`: every exception of the try-block is
caught and converted to an error envelope. The first component is the
payload of the single `msg.respond` call, the second the queries issued. -/
def request_handler (store : Store) (parsed : Except String Value) :
    Value × List String :=
  match dispatch store parsed with
  | (.ok r, qs) => (r, qs)
  | (.error e, qs) => (errResp e, qs)

/-- Replies sent for one request: the single `msg.respond` payload. -/
def replies (store : Store) (parsed : Except String Value) : List Value :=
  [(request_handler store parsed).1]

/-- A value is a well-formed response envelope when it is a dict whose
`status` is `"success"` or is `"error"` with a string message. -/
def isEnvelope (v : Value) : Bool :=
  match v with
  | .vdict fs =>
    match fs.lookup "status" with
    | some (.vstr "success") => true
    | some (.vstr "error") =>
      match fs.lookup "message" with
      | some (.vstr _) => true
      | _ => false
    | _ => false
  | _ => false

mutual

/-- JSON serialization of a response value, modelling `json.dumps` (number
rendering differs in spelling, not in determinism). -/
def encode : Value → String
  | .vnone => "null"
  | .vbool b => if b then "true" else "false"
  | .vint n => toString n
  | .vfloat q => toString q
  | .vstr s => "\"" ++ s ++ "\""
  | .vlist xs => "[" ++ encodeList xs ++ "]"
  | .vdict fs => "\x7b" ++ encodeFields fs ++ "\x7d"

/-- Serialization of array elements. -/
def encodeList : List Value → String
  | [] => ""
  | [x] => encode x
  | x :: xs => encode x ++ ", " ++ encodeList xs

/-- Serialization of object fields. -/
def encodeFields : List (String × Value) → String
  | [] => ""
  | [(k, v)] => "\"" ++ k ++ "\": " ++ encode v
  | (k, v) :: fs => "\"" ++ k ++ "\": " ++ encode v ++ ", " ++ encodeFields fs

end

/-- Test whether a response value is a dict whose `status` field is the
given string. -/
def statusIs (v : Value) (s : String) : Bool :=
  match v with
  | .vdict fs =>
    match fs.lookup "status" with
    | some (.vstr t) => t == s
    | _ => false
  | _ => false

/-- Value of the last qualifying numeric sample of a record list, as the
spec words the device-health derivation: the last iterated record whose
field is `"value"` and whose value is numeric wins. -/
def lastNumericValue : List FluxRecord → Option ℚ
  | [] => none
  | r :: rs =>
    match lastNumericValue rs with
    | some v => some v
    | none =>
      if r.field == "value" && isNumeric r.value then some (toRatD r.value) else none

/-- Store that returns the same fixed result for every query. -/
def constStore (tabs : List (List FluxRecord)) : Store := fun _ => .ok tabs

/-- Store holding one single-table temperature series with the given
values, used for the concrete spec examples. -/
def tempStore (qs : List ℚ) : Store :=
  constStore [qs.map (fun q => ⟨"t0", "value", vfloat q, []⟩)]

/-- Event record with the given device tag and criticality value, used for
the concrete critical-alerts examples. -/
def evRec (dev : String) (crit : Value) : FluxRecord :=
  ⟨"2024-01-01T00:00:00+00:00", "value", vint 1,
    [("event_id", vstr "e1"), ("source_device", vstr dev),
     ("event_type", vstr "threshold_breach"), ("criticality_level", crit)]⟩

/-- The device-health row loop retains the classification of the last
qualifying record: its fold equals the classification of
`lastNumericValue`, with the seed as fallback. -/
theorem foldl_healthStep (recs : List FluxRecord) : ∀ s : String,
    recs.foldl healthStep s =
      match lastNumericValue recs with
      | some v => classify v
      | none => s := by
  induction recs with
  | nil => intro s; rfl
  | cons r rs ih =>
    intro s
    show (rs.foldl healthStep (healthStep s r)) = _
    rw [ih (healthStep s r)]
    simp only [lastNumericValue, healthStep]
    cases hl : lastNumericValue rs with
    | some v => rfl
    | none =>
      cases hq : (r.field == "value" && isNumeric r.value) with
      | true => rfl
      | false => rfl

/-- Characterization of a device-health request with a truthy
`source_device` whose store query succeeds. -/
theorem health_ok (store : Store) (fs : List (String × Value))
    (tabs : List (List FluxRecord))
    (hd : pyTruthy (lookupD fs "source_device" vnone) = true)
    (hs : store (healthFlux (pyStr (lookupD fs "source_device" vnone))) = .ok tabs) :
    handle_device_health store (vdict fs) =
      (.ok (vdict [("status", vstr "success"),
        ("data", vdict [("device", lookupD fs "source_device" vnone),
          ("health", vstr (tabs.flatten.foldl healthStep "unknown"))])]),
       [healthFlux (pyStr (lookupD fs "source_device" vnone))]) := by
  simp only [handle_device_health, pyGetD, hd, hs]
  rw [if_neg (by simp)]

/-- Characterization of a temperature-anomaly request whose parameters
parse, whose store query succeeds, and whose projected series holds at
least two numeric values. -/
theorem anomaly_ok (store : Store) (p dev thRaw : Value) (th : ℚ)
    (wmRaw : Value) (wm : ℤ) (tabs : List (List FluxRecord))
    (qs : List ℚ) (q0 qn : ℚ)
    (h1 : pyGetD p "source_device" vnone = .ok dev)
    (h2 : pyGetD p "threshold" (vfloat (13/10)) = .ok thRaw)
    (h3 : pyFloat thRaw = .ok th)
    (h4 : pyGetD p "window_minutes" (vint 20) = .ok wmRaw)
    (h5 : pyInt wmRaw = .ok wm)
    (hs : store (anomalyFlux (pyStr dev) wm) = .ok tabs)
    (hv : tabs.flatten.filterMap
        (fun r => if r.field == "value" then some r.value else none) = qs.map vfloat)
    (hq0 : qs.head? = some q0) (hqn : qs.getLast? = some qn)
    (hlen : 2 ≤ qs.length) :
    handle_anomaly_temperature store p =
      (.ok (vdict [("status", vstr "success"),
        ("data", vdict [("device", dev), ("initial_temp", vfloat q0),
          ("latest_temp", vfloat qn),
          ("ratio", if q0 = 0 then vint 0 else vfloat (pyRound2 (qn / q0))),
          ("anomaly", vbool (decide ((if q0 = 0 then (0 : ℚ) else qn / q0) ≥ th)))])]),
       [anomalyFlux (pyStr dev) wm]) := by
  simp only [handle_anomaly_temperature, h1, h2, h3, h4, h5, hs, hv]
  rw [List.length_map, if_neg (by omega)]
  rw [List.headD_eq_head?, List.head?_map, hq0,
    List.getLastD_eq_getLast?, List.getLast?_map, hqn]
  by_cases h0 : q0 = 0
  · subst h0
    simp [pyNeZero, pyRoundVal, toRatD]
  · simp [pyNeZero, h0, pyDiv, isNumeric, toRatD, pyRoundVal]

/-- Characterization of a critical-alerts request whose parameters parse,
whose store query succeeds, and whose rows all project. -/
theorem alerts_ok (store : Store) (p smRaw : Value) (sm : ℤ) (mcRaw : Value)
    (mc : ℤ) (tabs : List (List FluxRecord)) (rows : List Value)
    (h1 : pyGetD p "since_minutes" (vint 15) = .ok smRaw)
    (h2 : pyInt smRaw = .ok sm)
    (h3 : pyGetD p "min_criticality" (vint 8) = .ok mcRaw)
    (h4 : pyInt mcRaw = .ok mc)
    (hs : store (alertsFlux sm mc) = .ok tabs)
    (hp : projectAlerts tabs.flatten = .ok rows) :
    handle_alerts_critical store p =
      (.ok (vdict [("status", vstr "success"), ("data", vlist rows),
        ("summary", vlist (groupSummary rows))]), [alertsFlux sm mc]) := by
  have hif : (if rows.isEmpty then ([] : List Value) else groupSummary rows)
      = groupSummary rows := by
    cases rows with
    | nil => rfl
    | cons a l => rfl
  simp only [handle_alerts_critical, h1, h2, h3, h4, hs, hp, hif]

/-- Every normally returned critical-alerts response is an envelope. -/
theorem alerts_env (store : Store) (p r : Value) (qs : List String)
    (h : handle_alerts_critical store p = (.ok r, qs)) : isEnvelope r = true := by
  simp only [handle_alerts_critical] at h
  repeat' split at h
  all_goals try (injection h with hA hB; injection hA)
  all_goals subst_vars
  all_goals rfl

/-- Every normally returned device-health response is an envelope. -/
theorem health_env (store : Store) (p r : Value) (qs : List String)
    (h : handle_device_health store p = (.ok r, qs)) : isEnvelope r = true := by
  simp only [handle_device_health] at h
  repeat' split at h
  all_goals try (injection h with hA hB; injection hA)
  all_goals subst_vars
  all_goals rfl

/-- Every normally returned temperature-anomaly response is an envelope. -/
theorem anomaly_env (store : Store) (p r : Value) (qs : List String)
    (h : handle_anomaly_temperature store p = (.ok r, qs)) : isEnvelope r = true := by
  simp only [handle_anomaly_temperature] at h
  repeat' split at h
  all_goals try (injection h with hA hB; injection hA)
  all_goals subst_vars
  all_goals rfl

/-- Every value the dispatcher body returns normally is an envelope. -/
theorem dispatch_ok_env (store : Store) (parsed : Except String Value)
    (r : Value) (qs : List String)
    (h : dispatch store parsed = (.ok r, qs)) : isEnvelope r = true := by
  simp only [dispatch] at h
  repeat' split at h
  all_goals try (injection h with hA hB; injection hA)
  all_goals try (exact alerts_env _ _ _ _ h)
  all_goals try (exact health_env _ _ _ _ h)
  all_goals try (exact anomaly_env _ _ _ _ h)
  all_goals subst_vars
  all_goals rfl

/-- Ordered insertion permutes. -/
theorem insertLe_perm (le : Value → Value → Bool) (a : Value) (l : List Value) :
    (insertLe le a l).Perm (a :: l) := by
  induction l with
  | nil => simp [insertLe]
  | cons b t ih =>
    simp only [insertLe]
    split
    · exact List.Perm.refl _
    · exact (ih.cons b).trans (List.Perm.swap a b t)

/-- Sorting the group keys permutes them. -/
theorem sortLe_perm (le : Value → Value → Bool) (l : List Value) :
    (sortLe le l).Perm l := by
  induction l with
  | nil => simp [sortLe]
  | cons a t ih => exact (insertLe_perm le a (sortLe le t)).trans (ih.cons a)

/-- Deduplication keeps only elements of the original list. -/
theorem dedupBy_subset (eq : Value → Value → Bool) (l : List Value) (x : Value)
    (h : x ∈ dedupBy eq l) : x ∈ l := by
  induction l with
  | nil => simpa [dedupBy] using h
  | cons a t ih =>
    simp only [dedupBy] at h
    split at h
    · exact List.mem_cons_of_mem a (ih h)
    · rcases List.mem_cons.mp h with h1 | h2
      · exact h1 ▸ List.mem_cons_self a t
      · exact List.mem_cons_of_mem a (ih h2)

/-- A value is Python-equal to a string exactly when it is that string. -/
theorem pyEqV_vstr_iff (v : Value) (s : String) :
    pyEqV v (vstr s) = true ↔ v = vstr s := by
  cases v <;> simp [pyEqV, isNumeric, vbeq]

/-- Python equality of two strings is string equality. -/
theorem pyEqV_vstr_vstr (s t : String) : pyEqV (vstr s) (vstr t) = (s == t) := rfl

/-- Any-hit and occurrence count of a string key in the deduplicated device
list: each distinct device occurs exactly once. -/
theorem dedupBy_any_countP (names : List String) : ∀ t : String,
    ((dedupBy pyEqV (names.map vstr)).any (pyEqV (vstr t)) = decide (t ∈ names))
    ∧ ((dedupBy pyEqV (names.map vstr)).countP (pyEqV (vstr t))
        = if t ∈ names then 1 else 0) := by
  induction names with
  | nil => intro t; simp [dedupBy]
  | cons s ns ih =>
    intro t
    simp only [List.map_cons, dedupBy]
    cases hany : (dedupBy pyEqV (ns.map vstr)).any (pyEqV (vstr s)) with
    | true =>
      have hs : s ∈ ns := by
        have h1 := (ih s).1
        rw [hany] at h1
        exact of_decide_eq_true h1.symm
      obtain ⟨iha, ihc⟩ := ih t
      rw [if_pos rfl]
      constructor
      · rw [iha]
        by_cases ht : t = s
        · subst ht; simp [hs]
        · simp [List.mem_cons, ht]
      · rw [ihc]
        by_cases ht : t = s
        · subst ht; simp [hs]
        · simp [List.mem_cons, ht]
    | false =>
      have hs : s ∉ ns := by
        have h1 := (ih s).1
        rw [hany] at h1
        simpa using h1.symm
      obtain ⟨iha, ihc⟩ := ih t
      rw [if_neg (by simp)]
      constructor
      · rw [List.any_cons, iha, pyEqV_vstr_vstr]
        by_cases ht : t = s
        · subst ht; simp
        · simp [List.mem_cons, ht, Ne.symm ht]
      · rw [List.countP_cons, ihc, pyEqV_vstr_vstr]
        by_cases ht : t = s
        · subst ht; simp [hs]
        · simp only [List.mem_cons, ht]
          have : ((t == s) = true) = False := by simp [ht]
          simp [ht, this]

/-- The `source_device` of a summary entry is its key. -/
theorem deviceOf_entry (d : Value) (n : ℤ) :
    deviceOf (vdict [("source_device", d), ("critical_event_count", vint n)]) = d := rfl

/-- The keys of the summary are the sorted deduplicated devices. -/
theorem groupSummary_map_deviceOf (rows : List Value) :
    (groupSummary rows).map deviceOf
      = sortLe keyLe (dedupBy pyEqV (rows.map deviceOf)) := by
  simp only [groupSummary, List.map_map]
  have : (deviceOf ∘ fun d =>
      vdict [("source_device", d),
        ("critical_event_count", vint ((rows.map deviceOf).countP (pyEqV d)))]) = id := by
    funext d; rfl
  rw [this, List.map_id]

/-- Each device present in the projected rows owns exactly one summary
entry (devices are tag strings of the store). -/
theorem groupSummary_one_entry (rows : List Value) (names : List String)
    (hdev : rows.map deviceOf = names.map vstr) (d : Value)
    (hd : d ∈ rows.map deviceOf) :
    ((groupSummary rows).map deviceOf).countP (pyEqV d) = 1 := by
  rw [groupSummary_map_deviceOf, hdev]
  rw [(sortLe_perm keyLe (dedupBy pyEqV (names.map vstr))).countP_eq]
  rw [hdev] at hd
  obtain ⟨t, ht, rfl⟩ := List.mem_map.mp hd
  rw [(dedupBy_any_countP names t).2, if_pos ht]

/-- Each summary entry belongs to a device present in the rows and carries
the count of its rows. -/
theorem groupSummary_entries (rows : List Value) (e : Value)
    (he : e ∈ groupSummary rows) :
    ∃ d, d ∈ rows.map deviceOf ∧
      e = vdict [("source_device", d),
        ("critical_event_count", vint ((rows.map deviceOf).countP (pyEqV d)))] := by
  simp only [groupSummary] at he
  obtain ⟨d, hd, rfl⟩ := List.mem_map.mp he
  refine ⟨d, ?_, rfl⟩
  exact dedupBy_subset pyEqV _ d
    ((sortLe_perm keyLe (dedupBy pyEqV (rows.map deviceOf))).mem_iff.mp hd)

/-- C1: for every inbound request exactly one reply is produced, on the
success and on the failure path alike; the reply is always a well-formed
envelope; and any exception `e` raised inside the try-block — during
request parsing, query construction, execution, projection or derivation —
is caught and converted to `{status: "error", message: e}`, so no
exception propagates past the dispatcher. -/
theorem c1_dispatcher_catches_and_replies_once (store : Store)
    (parsed : Except String Value) :
    (replies store parsed).length = 1
    ∧ isEnvelope (request_handler store parsed).1 = true
    ∧ (∀ e qs, dispatch store parsed = (.error e, qs) →
        request_handler store parsed = (errResp e, qs)) := by
  refine ⟨rfl, ?_, ?_⟩
  · rcases hd : dispatch store parsed with ⟨exc, qs⟩
    cases exc with
    | ok r =>
      have henv := dispatch_ok_env store parsed r qs hd
      simp [request_handler, hd, henv]
    | error e =>
      simp [request_handler, hd]
      rfl
  · intro e qs h
    simp [request_handler, h]

/-- Witness for C1 at a concrete failing parse: the exception description
becomes the error envelope. -/
theorem c1_witness :
    request_handler (constStore []) (Except.error "Expecting value: line 1 column 1 (char 0)")
      = (errResp "Expecting value: line 1 column 1 (char 0)", []) :=
  (c1_dispatcher_catches_and_replies_once (constStore [])
    (Except.error "Expecting value: line 1 column 1 (char 0)")).2.2
    "Expecting value: line 1 column 1 (char 0)" [] rfl

/-- C2: a request whose `query_type` is missing (so `None`) or not one of
the three recognized pipeline values gets exactly the reply
`{status: "error", message: "Unknown query_type: <value>"}` with the
supplied value interpolated, and the handler does not raise. -/
theorem c2_unknown_query_type (store : Store) (fs : List (String × Value))
    (h1 : pyEqStr (lookupD fs "query_type" vnone) "alerts_critical" = false)
    (h2 : pyEqStr (lookupD fs "query_type" vnone) "device_health" = false)
    (h3 : pyEqStr (lookupD fs "query_type" vnone) "anomaly_temperature" = false) :
    request_handler store (.ok (vdict fs))
      = (errResp ("Unknown query_type: " ++ pyStr (lookupD fs "query_type" vnone)), []) := by
  simp [request_handler, dispatch, pyGetD, h1, h2, h3]

/-- Witness for C2 at the unknown value `"bogus"`. -/
theorem c2_witness :
    request_handler (constStore []) (.ok (vdict [("query_type", vstr "bogus")]))
      = (errResp "Unknown query_type: bogus", []) :=
  c2_unknown_query_type (constStore []) [("query_type", vstr "bogus")] rfl rfl rfl

/-- C9: handling is deterministic — two invocations on the same request
with the same store yield the same response, hence byte-identical
serialized payloads and the same issued queries. -/
theorem c9_deterministic (store : Store) (parsed : Except String Value)
    (out1 out2 : Value × List String)
    (hA : out1 = request_handler store parsed)
    (hB : out2 = request_handler store parsed) :
    encode out1.1 = encode out2.1 ∧ out1 = out2 := by
  subst hA; subst hB; exact ⟨rfl, rfl⟩

/-- Witness for C9 at a concrete request. -/
theorem c9_witness :
    encode (request_handler (constStore []) (.ok (vdict []))).1
      = encode (request_handler (constStore []) (.ok (vdict []))).1
    ∧ request_handler (constStore []) (.ok (vdict []))
      = request_handler (constStore []) (.ok (vdict [])) :=
  c9_deterministic (constStore []) (.ok (vdict [])) _ _ rfl rfl

/-- C10: a device-health request whose `source_device` is present but
falsy — empty string, `None`, or `0` — is also rejected with
`{status: "error", message: "source_device is required"}` without
querying the store: the check is truthiness, not key presence. -/
theorem c10_falsy_source_device (store : Store) (fs : List (String × Value))
    (h : pyTruthy (lookupD fs "source_device" vnone) = false) :
    handle_device_health store (vdict fs)
        = (.ok (errResp "source_device is required"), [])
    ∧ pyTruthy (vstr "") = false
    ∧ pyTruthy vnone = false
    ∧ pyTruthy (vint 0) = false := by
  refine ⟨?_, rfl, rfl, by decide⟩
  simp only [handle_device_health, pyGetD, h]
  rw [if_pos trivial]

/-- Witness for C10 at an empty-string `source_device`. -/
theorem c10_witness :
    handle_device_health (constStore []) (vdict [("source_device", vstr "")])
      = (.ok (errResp "source_device is required"), []) :=
  (c10_falsy_source_device (constStore []) [("source_device", vstr "")] rfl).1

/-- C7: a temperature-anomaly request whose projected value sequence has
fewer than two elements succeeds with the string sentinel
`data = "not enough data"`. -/
theorem c7_not_enough_data (store : Store) (p dev thRaw : Value) (th : ℚ)
    (wmRaw : Value) (wm : ℤ) (tabs : List (List FluxRecord))
    (h1 : pyGetD p "source_device" vnone = .ok dev)
    (h2 : pyGetD p "threshold" (vfloat (13/10)) = .ok thRaw)
    (h3 : pyFloat thRaw = .ok th)
    (h4 : pyGetD p "window_minutes" (vint 20) = .ok wmRaw)
    (h5 : pyInt wmRaw = .ok wm)
    (hs : store (anomalyFlux (pyStr dev) wm) = .ok tabs)
    (hlen : (tabs.flatten.filterMap
        (fun r => if r.field == "value" then some r.value else none)).length < 2) :
    handle_anomaly_temperature store p
      = (.ok (vdict [("status", vstr "success"), ("data", vstr "not enough data")]),
         [anomalyFlux (pyStr dev) wm]) := by
  simp only [handle_anomaly_temperature, h1, h2, h3, h4, h5, hs]
  rw [if_pos hlen]

/-- Witness for C7 at a single-sample series `[20.0]`. -/
theorem c7_witness :
    handle_anomaly_temperature (tempStore [20])
        (vdict [("source_device", vstr "sensor-1")])
      = (.ok (vdict [("status", vstr "success"), ("data", vstr "not enough data")]),
         [anomalyFlux "sensor-1" 20]) :=
  c7_not_enough_data (tempStore [20]) (vdict [("source_device", vstr "sensor-1")])
    (vstr "sensor-1") (vfloat (13/10)) (13/10) (vint 20) 20
    [[⟨"t0", "value", vfloat 20, []⟩]] rfl rfl rfl rfl rfl rfl (by decide)

/-- C3 counterexample: a temperature-anomaly request without
`source_device` does query the store (with the device rendered `None`) and
does not return the required-parameter error; the required-parameter check
exists only in the device-health pipeline. -/
theorem c3_counterexample :
    (handle_anomaly_temperature (constStore []) (vdict [])).2 = [anomalyFlux "None" 20]
    ∧ (handle_anomaly_temperature (constStore []) (vdict [])).1
        = .ok (vdict [("status", vstr "success"), ("data", vstr "not enough data")])
    ∧ (handle_anomaly_temperature (constStore []) (vdict [])).1
        ≠ .ok (errResp "source_device is required") := by
  refine ⟨rfl, rfl, ?_⟩
  intro h
  rw [show (handle_anomaly_temperature (constStore []) (vdict [])).1
      = .ok (vdict [("status", vstr "success"), ("data", vstr "not enough data")]) from rfl] at h
  simp [errResp] at h

/-- C3 as amended: the device-health pipeline rejects a missing (falsy)
`source_device` with the error envelope and without querying the store;
the temperature-anomaly pipeline performs no such check — lacking
`source_device`, it still issues its store query. -/
theorem c3_missing_source_device (store : Store) :
    (∀ (fs : List (String × Value)),
      pyTruthy (lookupD fs "source_device" vnone) = false →
        handle_device_health store (vdict fs)
          = (.ok (errResp "source_device is required"), []))
    ∧ (handle_anomaly_temperature store (vdict [])).2 = [anomalyFlux "None" 20] := by
  constructor
  · intro fs h
    simp only [handle_device_health, pyGetD, h]
    rw [if_pos trivial]
  · simp only [handle_anomaly_temperature, pyGetD, lookupD, List.lookup, Option.getD,
      pyFloat, pyInt]
    repeat' split
    all_goals rfl

/-- Witness for C3 as amended, at empty params for both pipelines. -/
theorem c3_witness :
    handle_device_health (constStore []) (vdict [])
      = (.ok (errResp "source_device is required"), []) :=
  (c3_missing_source_device (constStore [])).1 [] rfl

/-- C5: a device-health request derives its classification from the last
qualifying numeric sample iterated — `value > 90` is `"critical"`,
`70 < value ≤ 90` is `"warning"`, `value ≤ 70` is `"ok"`, and with no
qualifying sample the health is `"unknown"` — and outputs
`{device, health}` inside a success envelope. -/
theorem c5_device_health_classification (store : Store)
    (fs : List (String × Value)) (tabs : List (List FluxRecord))
    (hd : pyTruthy (lookupD fs "source_device" vnone) = true)
    (hs : store (healthFlux (pyStr (lookupD fs "source_device" vnone))) = .ok tabs) :
    handle_device_health store (vdict fs) =
      (.ok (vdict [("status", vstr "success"),
        ("data", vdict [("device", lookupD fs "source_device" vnone),
          ("health", vstr (match lastNumericValue tabs.flatten with
            | some v =>
              if v > 90 then "critical"
              else if 70 < v ∧ v ≤ 90 then "warning"
              else "ok"
            | none => "unknown"))])]),
       [healthFlux (pyStr (lookupD fs "source_device" vnone))]) := by
  rw [health_ok store fs tabs hd hs]
  have hcls : tabs.flatten.foldl healthStep "unknown"
      = match lastNumericValue tabs.flatten with
        | some v =>
          if v > 90 then "critical"
          else if 70 < v ∧ v ≤ 90 then "warning"
          else "ok"
        | none => "unknown" := by
    rw [foldl_healthStep]
    cases lastNumericValue tabs.flatten with
    | none => rfl
    | some v =>
      simp only [classify]
      by_cases h90 : v > 90
      · simp [h90]
      · by_cases h70 : v > 70
        · have hw : 70 < v ∧ v ≤ 90 := ⟨h70, by linarith⟩
          simp [h90, h70, hw]
        · have hw : ¬(70 < v ∧ v ≤ 90) := fun hc => h70 hc.1
          simp [h90, h70, hw]
  rw [hcls]

/-- Witness for C5 at a concrete `95` sample (classified `"critical"`). -/
theorem c5_witness :
    handle_device_health (constStore [[⟨"t0", "value", vfloat 95, []⟩]])
        (vdict [("source_device", vstr "dev-1")]) =
      (.ok (vdict [("status", vstr "success"),
        ("data", vdict [("device", vstr "dev-1"),
          ("health", vstr "critical")])]),
       [healthFlux "dev-1"]) :=
  c5_device_health_classification (constStore [[⟨"t0", "value", vfloat 95, []⟩]])
    [("source_device", vstr "dev-1")] [[⟨"t0", "value", vfloat 95, []⟩]] rfl rfl

/-- C6: a critical-alerts request returns the projected event records in
store row order as `data` and a `summary` of per-device counts — exactly
one entry per distinct device present (devices being tag strings of
the store), each carrying its row count; with zero input records both
`data` and `summary` are present and empty inside a success envelope. -/
theorem c6_alerts_data_and_summary (store : Store) (p smRaw : Value)
    (sm : ℤ) (mcRaw : Value) (mc : ℤ) (tabs : List (List FluxRecord))
    (rows : List Value) (names : List String)
    (h1 : pyGetD p "since_minutes" (vint 15) = .ok smRaw)
    (h2 : pyInt smRaw = .ok sm)
    (h3 : pyGetD p "min_criticality" (vint 8) = .ok mcRaw)
    (h4 : pyInt mcRaw = .ok mc)
    (hs : store (alertsFlux sm mc) = .ok tabs)
    (hp : projectAlerts tabs.flatten = .ok rows)
    (hdev : rows.map deviceOf = names.map vstr) :
    handle_alerts_critical store p
      = (.ok (vdict [("status", vstr "success"), ("data", vlist rows),
          ("summary", vlist (groupSummary rows))]), [alertsFlux sm mc])
    ∧ (∀ d, d ∈ rows.map deviceOf →
        ((groupSummary rows).map deviceOf).countP (pyEqV d) = 1)
    ∧ (∀ e ∈ groupSummary rows, ∃ d, d ∈ rows.map deviceOf ∧
        e = vdict [("source_device", d),
          ("critical_event_count", vint ((rows.map deviceOf).countP (pyEqV d)))])
    ∧ handle_alerts_critical (constStore []) (vdict [])
        = (.ok (vdict [("status", vstr "success"), ("data", vlist []),
            ("summary", vlist [])]), [alertsFlux 15 8])
    ∧ handle_alerts_critical
        (constStore [[evRec "A" (vint 9), evRec "A" (vint 10), evRec "B" (vint 8)]])
        (vdict [])
      = (.ok (vdict [("status", vstr "success"),
          ("data", vlist [
            vdict [("time", vstr "2024-01-01T00:00:00+00:00"), ("event_id", vstr "e1"),
              ("source_device", vstr "A"), ("event_type", vstr "threshold_breach"),
              ("criticality", vint 9)],
            vdict [("time", vstr "2024-01-01T00:00:00+00:00"), ("event_id", vstr "e1"),
              ("source_device", vstr "A"), ("event_type", vstr "threshold_breach"),
              ("criticality", vint 10)],
            vdict [("time", vstr "2024-01-01T00:00:00+00:00"), ("event_id", vstr "e1"),
              ("source_device", vstr "B"), ("event_type", vstr "threshold_breach"),
              ("criticality", vint 8)]]),
          ("summary", vlist [
            vdict [("source_device", vstr "A"), ("critical_event_count", vint 2)],
            vdict [("source_device", vstr "B"), ("critical_event_count", vint 1)]])]),
         [alertsFlux 15 8]) := by
  refine ⟨alerts_ok store p smRaw sm mcRaw mc tabs rows h1 h2 h3 h4 hs hp,
    fun d hd => groupSummary_one_entry rows names hdev d hd,
    fun e he => groupSummary_entries rows e he, rfl, rfl⟩

/-- Witness for C6 at the empty store result. -/
theorem c6_witness :
    handle_alerts_critical (constStore []) (vdict [])
      = (.ok (vdict [("status", vstr "success"), ("data", vlist []),
          ("summary", vlist [])]), [alertsFlux 15 8]) :=
  (c6_alerts_data_and_summary (constStore []) (vdict []) (vint 15) 15 (vint 8) 8
    [] [] [] rfl rfl rfl rfl rfl rfl rfl).1

/-- Evaluation of `pyRound2` when the scaled value sits strictly below the
half-way point above its floor. -/
theorem pyRound2_lo (q : ℚ) (z : ℤ) (h1 : (z : ℚ) ≤ 100 * q)
    (h2 : 100 * q - z < 1/2) : pyRound2 q = (z : ℚ) / 100 := by
  have hf : ⌊100 * q⌋ = z := Int.floor_eq_iff.mpr ⟨h1, by linarith⟩
  unfold pyRound2 roundHalfEven
  rw [hf]
  rw [if_pos (by push_cast; linarith)]

/-- Evaluation of `pyRound2` when the scaled value sits strictly above the
half-way point above its floor. -/
theorem pyRound2_hi (q : ℚ) (z : ℤ) (h1 : 100 * q - z > 1/2)
    (h2 : 100 * q < (z : ℚ) + 1) : pyRound2 q = ((z : ℚ) + 1) / 100 := by
  have hf : ⌊100 * q⌋ = z := Int.floor_eq_iff.mpr ⟨by linarith, by push_cast; linarith⟩
  unfold pyRound2 roundHalfEven
  rw [hf]
  rw [if_neg (by push_cast; linarith), if_pos (by push_cast; linarith)]
  push_cast
  ring

/-- C4 counterexample to the rounding order: with values `[1000, 1299]`
and the default threshold `1.3`, the emitted rounded ratio is `1.3`,
which meets the threshold, yet the emitted `anomaly` is `false` — the
code compares the unrounded ratio `1.299` against the threshold, not the
rounded one the claim describes. -/
theorem c4_counterexample :
    (handle_anomaly_temperature (tempStore [1000, 1299])
        (vdict [("source_device", vstr "dev")])).1
      = .ok (vdict [("status", vstr "success"),
          ("data", vdict [("device", vstr "dev"), ("initial_temp", vfloat 1000),
            ("latest_temp", vfloat 1299), ("ratio", vfloat (13/10)),
            ("anomaly", vbool false)])])
    ∧ (13/10 : ℚ) ≥ 13/10
    ∧ pyRound2 ((1299 : ℚ) / 1000) = 13/10 := by
  have hr : pyRound2 ((1299 : ℚ) / 1000) = 13/10 := by
    rw [pyRound2_hi ((1299 : ℚ) / 1000) 129 (by norm_num) (by norm_num)]
    norm_num
  refine ⟨?_, le_refl _, hr⟩
  have h := anomaly_ok (tempStore [1000, 1299]) (vdict [("source_device", vstr "dev")])
    (vstr "dev") (vfloat (13/10)) (13/10) (vint 20) 20
    [[⟨"t0", "value", vfloat 1000, []⟩, ⟨"t0", "value", vfloat 1299, []⟩]]
    [1000, 1299] 1000 1299 rfl rfl rfl rfl rfl rfl rfl rfl rfl (by decide)
  rw [h]
  rw [if_neg (by norm_num : ¬(1000 : ℚ) = 0), if_neg (by norm_num : ¬(1000 : ℚ) = 0)]
  rw [show pyRound2 ((1299 : ℚ) / 1000) = 13/10 from hr]
  rw [show decide ((1299 : ℚ) / 1000 ≥ 13/10) = false from by
    rw [decide_eq_false_iff_not]
    norm_num]

/-- C4 as amended: the derivation computes `ratio = latest/initial` when
`initial ≠ 0` and `ratio = 0` otherwise; `anomaly` compares the
**unrounded** ratio against the threshold, while the emitted `ratio` field
is the ratio rounded to two decimal places (`0` stays the integer `0`);
the output is `{device, initial_temp, latest_temp, ratio, anomaly}`. In
particular values `[20.0, 30.0]` with threshold `1.3` give `ratio = 1.5`
and `anomaly = true`, values `[20.0, 22.0]` give `ratio = 1.1` and
`anomaly = false`, and initial value `0` gives the integer `ratio = 0` and
`anomaly = false` for every threshold `> 0`. -/
theorem c4_anomaly_ratio_derivation (store : Store) (p dev thRaw : Value)
    (th : ℚ) (wmRaw : Value) (wm : ℤ) (tabs : List (List FluxRecord))
    (qs : List ℚ) (q0 qn : ℚ)
    (h1 : pyGetD p "source_device" vnone = .ok dev)
    (h2 : pyGetD p "threshold" (vfloat (13/10)) = .ok thRaw)
    (h3 : pyFloat thRaw = .ok th)
    (h4 : pyGetD p "window_minutes" (vint 20) = .ok wmRaw)
    (h5 : pyInt wmRaw = .ok wm)
    (hs : store (anomalyFlux (pyStr dev) wm) = .ok tabs)
    (hv : tabs.flatten.filterMap
        (fun r => if r.field == "value" then some r.value else none) = qs.map vfloat)
    (hq0 : qs.head? = some q0) (hqn : qs.getLast? = some qn)
    (hlen : 2 ≤ qs.length) :
    handle_anomaly_temperature store p =
      (.ok (vdict [("status", vstr "success"),
        ("data", vdict [("device", dev), ("initial_temp", vfloat q0),
          ("latest_temp", vfloat qn),
          ("ratio", if q0 = 0 then vint 0 else vfloat (pyRound2 (qn / q0))),
          ("anomaly", vbool (decide ((if q0 = 0 then (0 : ℚ) else qn / q0) ≥ th)))])]),
       [anomalyFlux (pyStr dev) wm])
    ∧ handle_anomaly_temperature (tempStore [20, 30])
        (vdict [("source_device", vstr "dev")])
      = (.ok (vdict [("status", vstr "success"),
          ("data", vdict [("device", vstr "dev"), ("initial_temp", vfloat 20),
            ("latest_temp", vfloat 30), ("ratio", vfloat (3/2)),
            ("anomaly", vbool true)])]), [anomalyFlux "dev" 20])
    ∧ handle_anomaly_temperature (tempStore [20, 22])
        (vdict [("source_device", vstr "dev")])
      = (.ok (vdict [("status", vstr "success"),
          ("data", vdict [("device", vstr "dev"), ("initial_temp", vfloat 20),
            ("latest_temp", vfloat 22), ("ratio", vfloat (11/10)),
            ("anomaly", vbool false)])]), [anomalyFlux "dev" 20])
    ∧ (∀ t : ℚ, 0 < t →
        handle_anomaly_temperature (tempStore [0, 25])
          (vdict [("source_device", vstr "dev"), ("threshold", vfloat t)])
        = (.ok (vdict [("status", vstr "success"),
            ("data", vdict [("device", vstr "dev"), ("initial_temp", vfloat 0),
              ("latest_temp", vfloat 25), ("ratio", vint 0),
              ("anomaly", vbool false)])]), [anomalyFlux "dev" 20])) := by
  refine ⟨anomaly_ok store p dev thRaw th wmRaw wm tabs qs q0 qn
    h1 h2 h3 h4 h5 hs hv hq0 hqn hlen, ?_, ?_, ?_⟩
  · have h := anomaly_ok (tempStore [20, 30]) (vdict [("source_device", vstr "dev")])
      (vstr "dev") (vfloat (13/10)) (13/10) (vint 20) 20
      [[⟨"t0", "value", vfloat 20, []⟩, ⟨"t0", "value", vfloat 30, []⟩]]
      [20, 30] 20 30 rfl rfl rfl rfl rfl rfl rfl rfl rfl (by decide)
    rw [h]
    rw [if_neg (by norm_num : ¬(20 : ℚ) = 0), if_neg (by norm_num : ¬(20 : ℚ) = 0)]
    rw [show pyRound2 ((30 : ℚ) / 20) = 3/2 from by
      rw [pyRound2_lo ((30 : ℚ) / 20) 150 (by norm_num) (by norm_num)]
      norm_num]
    rw [show decide ((30 : ℚ) / 20 ≥ 13/10) = true from by
      rw [decide_eq_true_eq]
      norm_num]
    rfl
  · have h := anomaly_ok (tempStore [20, 22]) (vdict [("source_device", vstr "dev")])
      (vstr "dev") (vfloat (13/10)) (13/10) (vint 20) 20
      [[⟨"t0", "value", vfloat 20, []⟩, ⟨"t0", "value", vfloat 22, []⟩]]
      [20, 22] 20 22 rfl rfl rfl rfl rfl rfl rfl rfl rfl (by decide)
    rw [h]
    rw [if_neg (by norm_num : ¬(20 : ℚ) = 0), if_neg (by norm_num : ¬(20 : ℚ) = 0)]
    rw [show pyRound2 ((22 : ℚ) / 20) = 11/10 from by
      rw [pyRound2_lo ((22 : ℚ) / 20) 110 (by norm_num) (by norm_num)]
      norm_num]
    rw [show decide ((22 : ℚ) / 20 ≥ 13/10) = false from by
      rw [decide_eq_false_iff_not]
      norm_num]
    rfl
  · intro t ht
    have h := anomaly_ok (tempStore [0, 25])
      (vdict [("source_device", vstr "dev"), ("threshold", vfloat t)])
      (vstr "dev") (vfloat t) t (vint 20) 20
      [[⟨"t0", "value", vfloat 0, []⟩, ⟨"t0", "value", vfloat 25, []⟩]]
      [0, 25] 0 25 rfl rfl rfl rfl rfl rfl rfl rfl rfl (by decide)
    rw [h]
    rw [if_pos rfl, if_pos rfl]
    rw [show decide ((0 : ℚ) ≥ t) = false from by
      rw [decide_eq_false_iff_not]
      exact fun hc => absurd (lt_of_lt_of_le ht hc) (lt_irrefl 0)]
    rfl

/-- Witness for C4 at the `[20.0, 30.0]` series. -/
theorem c4_witness :
    handle_anomaly_temperature (tempStore [20, 30])
        (vdict [("source_device", vstr "dev")])
      = (.ok (vdict [("status", vstr "success"),
          ("data", vdict [("device", vstr "dev"), ("initial_temp", vfloat 20),
            ("latest_temp", vfloat 30), ("ratio", vfloat (3/2)),
            ("anomaly", vbool true)])]), [anomalyFlux "dev" 20]) :=
  (c4_anomaly_ratio_derivation (tempStore [20, 30])
    (vdict [("source_device", vstr "dev")]) (vstr "dev") (vfloat (13/10)) (13/10)
    (vint 20) 20 [[⟨"t0", "value", vfloat 20, []⟩, ⟨"t0", "value", vfloat 30, []⟩]]
    [20, 30] 20 30 rfl rfl rfl rfl rfl rfl rfl rfl rfl (by decide)).2.1

/-- C8 counterexample: in the critical-alerts pipeline a record whose
`criticality_level` is the non-numeric string `"high"` is not skipped —
`int(...)` raises, every record is dropped, and the dispatcher replies
with an error envelope instead of a success one. -/
theorem c8_counterexample :
    request_handler (constStore [[evRec "C" (vstr "high"), evRec "D" (vint 9)]])
        (.ok (vdict [("query_type", vstr "alerts_critical")]))
      = (errResp "invalid literal for int() with base 10: high", [alertsFlux 15 8])
    ∧ statusIs (request_handler (constStore [[evRec "C" (vstr "high"), evRec "D" (vint 9)]])
        (.ok (vdict [("query_type", vstr "alerts_critical")]))).1 "success" = false
    ∧ statusIs (request_handler (constStore [[evRec "C" (vstr "high"), evRec "D" (vint 9)]])
        (.ok (vdict [("query_type", vstr "alerts_critical")]))).1 "error" = true :=
  ⟨rfl, rfl, rfl⟩

/-- C8 as amended: only the device-health pipeline skips a record whose
value is non-numeric — such a record leaves the running health unchanged,
the remaining records are still processed, and the response is still a
success envelope. The critical-alerts pipeline instead raises on a
criticality that `int(...)` cannot convert, and the temperature-anomaly
pipeline admits non-numeric values into its series, where the ratio
division raises; both surface as dispatcher-level error envelopes. -/
theorem c8_non_numeric_records :
    (∀ (s : String) (l1 l2 : List FluxRecord) (r : FluxRecord),
      (r.field == "value" && isNumeric r.value) = false →
        (l1 ++ r :: l2).foldl healthStep s = (l1 ++ l2).foldl healthStep s)
    ∧ handle_device_health
        (constStore [[⟨"t0", "value", vfloat 95, []⟩, ⟨"t1", "value", vstr "n/a", []⟩]])
        (vdict [("source_device", vstr "dev")])
      = (.ok (vdict [("status", vstr "success"),
          ("data", vdict [("device", vstr "dev"), ("health", vstr "critical")])]),
         [healthFlux "dev"])
    ∧ handle_alerts_critical (constStore [[evRec "E" (vstr "n/a")]]) (vdict [])
      = (.error "invalid literal for int() with base 10: n/a", [alertsFlux 15 8])
    ∧ handle_anomaly_temperature
        (constStore [[⟨"t0", "value", vstr "n/a", []⟩, ⟨"t1", "value", vfloat 20, []⟩]])
        (vdict [("source_device", vstr "dev")])
      = (.error "unsupported operand type(s) for /: float and str",
         [anomalyFlux "dev" 20]) := by
  refine ⟨?_, ?_, rfl, rfl⟩
  · intro s l1 l2 r hr
    rw [List.foldl_append, List.foldl_append, List.foldl_cons]
    have hstep : healthStep (l1.foldl healthStep s) r = l1.foldl healthStep s := by
      unfold healthStep
      rw [hr]
      rfl
    rw [hstep]
  · have h := health_ok
      (constStore [[⟨"t0", "value", vfloat 95, []⟩, ⟨"t1", "value", vstr "n/a", []⟩]])
      [("source_device", vstr "dev")]
      [[⟨"t0", "value", vfloat 95, []⟩, ⟨"t1", "value", vstr "n/a", []⟩]] rfl rfl
    rw [h]
    rw [show List.foldl healthStep "unknown"
        ([[⟨"t0", "value", vfloat 95, []⟩, ⟨"t1", "value", vstr "n/a", []⟩]] :
          List (List FluxRecord)).flatten = "critical" from by
      show healthStep (healthStep "unknown" ⟨"t0", "value", vfloat 95, []⟩)
        ⟨"t1", "value", vstr "n/a", []⟩ = "critical"
      unfold healthStep classify
      norm_num [isNumeric, toRatD]]
    rfl

/-- Witness for C8: a non-qualifying record inside the device-health row
loop leaves the fold unchanged. -/
theorem c8_witness :
    (([] ++ (⟨"t0", "value", vstr "n/a", []⟩ : FluxRecord) ::
        ([] : List FluxRecord)).foldl healthStep "unknown")
      = (([] ++ ([] : List FluxRecord)).foldl healthStep "unknown") :=
  c8_non_numeric_records.1 "unknown" [] []
    (⟨"t0", "value", vstr "n/a", []⟩ : FluxRecord) rfl

end ReaderService
